import Mathlib

/-!
Verification of the Memory Store & Semantic Retrieval Engine
(`services/database_service.py`, `services/parser_service.py`,
`utils/memory_utils.py`, `routers/search.py`).

Modelling conventions:
* Embedding vectors (numpy float arrays in the source) are modelled as
  `List ℝ`.  `np.dot` on equal-length arrays is `dotList` (`zipWith (*)`
  then sum; on unequal lengths numpy raises, the model truncates to the
  common prefix — every vector produced by the pipeline has the fixed
  provider dimension, so the two agree on all reachable inputs).
* `np.linalg.norm` is `normOf` (square root of the sum of squares).
* The IEEE float expression `np.dot(q,e) / (norm(q)*norm(e))` yields NaN
  exactly when the denominator is 0 (the numerator is then 0 as well, by
  Cauchy–Schwarz, so the quotient is 0/0, never ±inf).  `simFloat` models
  this: `none` stands for NaN, `some` for an ordinary float.  The source
  guard `similarity >= threshold` is false for NaN, which is modelled by
  `Option.bind`: a `none` similarity never passes the threshold test.
* DynamoDB tables are association lists keyed by the `id` attribute;
  `put_item` replaces the item with the same key, `get_item` is `find?`,
  `delete_item` is `filter`.  The in-memory `vector_store` dict is a
  `List (String × VectorEntry)` in insertion order; assignment to an
  existing key keeps its position (Python dict semantics).
* A Python dict entry without a `user_id` key is `user_id = none`
  (`dict.get` returns `None` for a missing key, indistinguishable from a
  stored `None`).
* `uuid.uuid4()` and timestamps are modelled as caller-supplied fresh-id
  parameters; the `metadata`, `source`, `summary`, `tags` and timestamp
  fields of a memory item are elided — no claim below depends on them.
* The `search_time` field the source attaches to each result (flagged in
  the design notes as a latent defect) is not modelled.
-/

namespace UniMem

/-- Models `np.dot` for two float vectors, `utils/memory_utils.py` line 28 /
`database_service.py` line 283. -/
def dotList (q v : List ℝ) : ℝ := (List.zipWith (fun a b => a * b) q v).sum

/-- Models `np.linalg.norm` (Euclidean norm), `database_service.py` line 284. -/
noncomputable def normOf (v : List ℝ) : ℝ := Real.sqrt (dotList v v)

/-- Source `utils/memory_utils.py` lines 22–32, `calculate_similarity`:
cosine similarity `np.dot(vec1, vec2) / (norm(vec1) * norm(vec2))`,
as a real number (the real value of the float expression when the
denominator is nonzero). -/
noncomputable def calculateSimilarity (e1 e2 : List ℝ) : ℝ :=
  dotList e1 e2 / (normOf e1 * normOf e2)

/-- The IEEE value of the similarity expression in
`database_service.py` lines 283–285: `none` models NaN, produced exactly
when the denominator `norm(query) * norm(candidate)` is zero. -/
noncomputable def simFloat (q v : List ℝ) : Option ℝ :=
  if normOf q * normOf v = 0 then none else some (calculateSimilarity q v)

/-- A row of the `unimem-memories` DynamoDB table
(`database_service.py` lines 196–207; metadata / source / summary / tags /
timestamps elided). -/
structure MemoryRec where
  id : String
  user_id : String
  content : String
  memory_type : String
  deriving DecidableEq

/-- A row of the `unimem-embeddings` DynamoDB table
(`database_service.py` lines 215–221; the Decimal round-trip of the
vector is modelled as exact). -/
structure VectorRec where
  id : String
  user_id : String
  embedding : List ℝ

/-- An entry of the in-memory `self.vector_store` dict
(`database_service.py` lines 148–152 and 234–237).  Entries written by
`_load_vectors_to_memory` carry `user_id = some u`; entries written by
`create_memory` omit the key, i.e. `user_id = none`. -/
structure VectorEntry where
  embedding : List ℝ
  memory_id : String
  user_id : Option String

/-- The mutable state of a `DatabaseService` instance: the disabled
flag set by `_init_tables` on access denial, the two DynamoDB tables and
the in-memory vector store. -/
structure DBState where
  dynamodbDisabled : Bool
  memories : List MemoryRec
  vectors : List VectorRec
  vector_store : List (String × VectorEntry)

/-- One element of the list returned by `semantic_search`
(`database_service.py` lines 293–297; the `search_time` field is not
modelled). -/
structure SearchResult where
  memory : MemoryRec
  similarity_score : ℝ

/-- Source `database_service.py` lines 307–322, `get_memory_by_id`:
`None` when DynamoDB is disabled (or the keyed item is absent), the
table item otherwise. -/
def getMemoryById (st : DBState) (memory_id : String) : Option MemoryRec :=
  if st.dynamodbDisabled then none
  else st.memories.find? (fun m => m.id == memory_id)

/-- Python dict assignment `store[k] = v`: replaces in place when the
key exists, appends otherwise. -/
def storeInsert (store : List (String × VectorEntry)) (k : String) (v : VectorEntry) :
    List (String × VectorEntry) :=
  if store.any (fun p => p.1 == k) then
    store.map (fun p => if p.1 == k then (k, v) else p)
  else store ++ [(k, v)]

/-- DynamoDB `put_item` on the memories table: replaces the item with
the same key. -/
def putMemRecord (l : List MemoryRec) (m : MemoryRec) : List MemoryRec :=
  l.filter (fun x => !(x.id == m.id)) ++ [m]

/-- DynamoDB `put_item` on the embeddings table. -/
def putVecRecord (l : List VectorRec) (r : VectorRec) : List VectorRec :=
  l.filter (fun x => !(x.id == r.id)) ++ [r]

/-- Which of the two DynamoDB `put_item` calls inside `create_memory`
raises (failure injection for the durable record store). -/
inductive PutFail
  | memPut
  | vecPut
  deriving DecidableEq

/-- Outcome of `create_memory`: the returned memory id, the bare
`return None` of the disabled path (line 190), or a raised exception
(line 245 re-raises). -/
inductive CreateResult
  | created (id : String)
  | skipped
  | raised
  deriving DecidableEq

/-- Source `database_service.py` lines 161–245, `create_memory`.
Order of effects as in the source: memories `put_item`, then embeddings
`put_item`, then the in-memory store insert, then return.  A raised put
leaves every effect already performed in place (no rollback).  The
entry written to `vector_store` (lines 234–237) has only the keys
`embedding` and `memory_id` — no `user_id`. -/
def createMemory (st : DBState) (fail : Option PutFail) (newId : String)
    (content memory_type : String) (embedding : List ℝ) (user_id : String) :
    CreateResult × DBState :=
  if st.dynamodbDisabled then (.skipped, st)
  else if fail = some .memPut then (.raised, st)
  else
    let st1 : DBState :=
      { st with memories := putMemRecord st.memories ⟨newId, user_id, content, memory_type⟩ }
    if fail = some .vecPut then (.raised, st1)
    else
      let st2 : DBState :=
        { st1 with vectors := putVecRecord st1.vectors ⟨newId, user_id, embedding⟩ }
      (.created newId,
        { st2 with vector_store := storeInsert st2.vector_store newId ⟨embedding, newId, none⟩ })

/-- Source `database_service.py` lines 128–159, `_load_vectors_to_memory`:
rebuilds `vector_store` from a scan of the embeddings table; each loaded
entry carries `user_id = item.get('user_id')` (lines 148–152). -/
def loadVectorsToMemory (st : DBState) : DBState :=
  if st.dynamodbDisabled then st
  else { st with vector_store :=
    st.vectors.map (fun r => (r.id, ⟨r.embedding, r.id, some r.user_id⟩)) }

/-- Source `database_service.py` lines 405–426, `delete_memory`: deletes the
memories item, the embeddings item, and the `vector_store` entry, then
returns `True`.  When DynamoDB is disabled, `self.dynamodb` is `None`,
so the first table access raises, the handler returns `False`, and the
state is unchanged. -/
def deleteMemory (st : DBState) (memory_id : String) : DBState × Bool :=
  if st.dynamodbDisabled then (st, false)
  else
    ({ st with
        memories := st.memories.filter (fun m => !(m.id == memory_id)),
        vectors := st.vectors.filter (fun r => !(r.id == memory_id)),
        vector_store := st.vector_store.filter (fun p => !(p.1 == memory_id)) },
      true)

/-- The per-entry body of the `semantic_search` loop,
`database_service.py` lines 275–300: skip an entry whose cached
`user_id` differs from the requester; compute the similarity (a NaN,
i.e. `none`, never satisfies `similarity >= threshold`); resolve the
memory item and keep it only when it exists and its `user_id` matches. -/
noncomputable def scoreEntry (st : DBState) (query : List ℝ) (user_id : String)
    (threshold : ℝ) (p : String × VectorEntry) : Option SearchResult :=
  if p.2.user_id ≠ some user_id then none
  else
    (simFloat query p.2.embedding).bind (fun s =>
      if s ≥ threshold then
        (getMemoryById st p.1).bind (fun mem =>
          if mem.user_id = user_id then some ⟨mem, s⟩ else none)
      else none)

/-- Stable descending insertion: the new element goes before the first
element whose score is not larger.  Models
`results.sort(key=lambda x: x['similarity_score'], reverse=True)`
(`database_service.py` line 303): Python's sort is stable, and a stable
descending sort of a list equals this insertion sort. -/
noncomputable def insertDesc (x : SearchResult) : List SearchResult → List SearchResult
  | [] => [x]
  | y :: ys => if x.similarity_score ≥ y.similarity_score then x :: y :: ys
               else y :: insertDesc x ys

/-- Stable descending sort by `similarity_score` (see `insertDesc`). -/
noncomputable def sortDesc : List SearchResult → List SearchResult
  | [] => []
  | x :: xs => insertDesc x (sortDesc xs)

/-- Source `database_service.py` lines 247–305, `semantic_search`: scan every
`vector_store` entry, keep the ones `scoreEntry` accepts, sort by
similarity descending, truncate to `limit`. -/
noncomputable def semanticSearch (st : DBState) (query : List ℝ) (user_id : String)
    (limit : Nat) (threshold : ℝ) : List SearchResult :=
  (sortDesc (st.vector_store.filterMap (scoreEntry st query user_id threshold))).take limit

/-- Source `database_service.py` lines 381–403, `get_related_memories`.  The
method's signature is `(self, memory_id, limit=5)` — it has no `user_id`
parameter.  When `memory_id` is absent from `vector_store` it returns
`[]` (line 389).  Otherwise it reaches the call
`self.semantic_search(query_embedding=..., limit=limit + 1, threshold=0.5)`
(lines 394–398), which omits the required positional argument `user_id`
of `semantic_search(self, query_embedding, user_id, limit=10,
threshold=0.7)` and therefore raises `TypeError` before any search
runs; `error ()` models that raised exception. -/
def getRelatedMemoriesSvc (st : DBState) (memory_id : String) (_limit : Nat) :
    Except Unit (List SearchResult) :=
  if st.vector_store.any (fun p => p.1 == memory_id) then .error ()
  else .ok []

/-- Source `routers/search.py` lines 114–129, the `GET /memories/{memory_id}`
handler: it declares no authentication dependency and receives no caller
identity — its only inputs are the service state and the path id.  404
when the memory is absent, otherwise the memory is returned to whoever
asked. -/
def getMemoryByIdRoute (st : DBState) (memory_id : String) : Except Nat MemoryRec :=
  match getMemoryById st memory_id with
  | none => .error 404
  | some m => .ok m

/-- Source `routers/search.py` lines 177–195, the `DELETE /memories/{memory_id}`
handler: again no authentication dependency and no caller identity.  It
calls `database_service.delete_memory` unconditionally and maps a
`False` result to 404. -/
def deleteMemoryRoute (st : DBState) (memory_id : String) : Except Nat Unit × DBState :=
  let r := deleteMemory st memory_id
  (if r.2 then .ok () else .error 404, r.1)

/-! Chunking pipeline (`services/parser_service.py` lines 35–104)

Python strings are modelled as `List Char`.  The float token estimate
`int(chinese_chars * 1.2 + english_words * 1.5)` is modelled with exact
arithmetic, `(12 * chinese + 15 * words) / 10` in `Nat` (truncating
division); for counts where the binary float rounding of `c * 1.2`
crosses an integer boundary the float value can differ by one from the
exact one, which only shifts which texts satisfy a given budget, not
the branch structure proved about below. -/

/-- The whitespace set of Python `str.split()` / `str.strip()` (ASCII
part; the exotic unicode spaces Python also strips do not occur in the
claims). -/
def pyIsSpace (c : Char) : Bool :=
  c = ' ' || c = '\t' || c = '\n' || c = '\r' || c = '\x0b' || c = '\x0c'

/-- Number of maximal nonspace runs, i.e. `len(text.split())`. -/
def countWordsAux : Bool → List Char → Nat
  | _, [] => 0
  | inWord, c :: rest =>
    if pyIsSpace c then countWordsAux false rest
    else (if inWord then 0 else 1) + countWordsAux true rest

/-- Count `len(text.split())` — the `english_words` count of the estimator. -/
def countWords (t : List Char) : Nat := countWordsAux false t

/-- Number of CJK characters, the list comprehension over
`'一' <= c <= '鿿'` (`parser_service.py` line 42). -/
def countCJK (t : List Char) : Nat :=
  (t.filter (fun c => 0x4e00 ≤ c.toNat && c.toNat ≤ 0x9fff)).length

/-- Source `parser_service.py` lines 41–45, `estimate_tokens`:
`int(chinese_chars * 1.2 + english_words * 1.5)` with exact arithmetic. -/
def estimateTokens (t : List Char) : Nat :=
  (12 * countCJK t + 15 * countWords t) / 10

/-- Python `str.strip()`: drop leading and trailing whitespace. -/
def pyStrip (t : List Char) : List Char :=
  ((t.dropWhile pyIsSpace).reverse.dropWhile pyIsSpace).reverse

/-- Python `text.split('\n\n')`: split on non-overlapping occurrences of
the two-newline separator, left to right, keeping empty pieces. -/
def splitParagraphs : List Char → List (List Char)
  | [] => [[]]
  | '\n' :: '\n' :: rest => [] :: splitParagraphs rest
  | c :: rest =>
    match splitParagraphs rest with
    | [] => [[c]]
    | p :: ps => (c :: p) :: ps

/-- Python `text.split(sep)` for a one-character separator, keeping
empty pieces. -/
def splitOnChar (sep : Char) : List Char → List (List Char)
  | [] => [[]]
  | c :: rest =>
    if c = sep then [] :: splitOnChar sep rest
    else
      match splitOnChar sep rest with
      | [] => [[c]]
      | p :: ps => (c :: p) :: ps

/-- The sentence-packing loop of `_split_long_paragraph`
(`parser_service.py` lines 90–103): skip sentences that strip to
nothing; greedily extend `current_chunk` while the estimate stays within
budget, flushing (stripped) when it would overflow; flush the final
chunk. -/
def packSentences (maxTokens : Nat) : List (List Char) → List Char → List (List Char)
  | [], current => if current ≠ [] then [pyStrip current] else []
  | s :: ss, current =>
    if pyStrip s = [] then packSentences maxTokens ss current
    else if estimateTokens (current ++ s) ≤ maxTokens then
      packSentences maxTokens ss (current ++ s ++ ['。'])
    else
      (if current ≠ [] then [pyStrip current] else []) ++
        packSentences maxTokens ss (s ++ ['。'])

/-- Source `parser_service.py` lines 78–104, `_split_long_paragraph`: split the
paragraph on `。` and greedily pack the sentences. -/
def splitLongParagraph (p : List Char) (maxTokens : Nat) : List (List Char) :=
  packSentences maxTokens (splitOnChar '。' p) []

/-- The paragraph-packing loop of `_split_text_into_chunks`
(`parser_service.py` lines 55–74): an oversized paragraph flushes the
current chunk and is recursively split; otherwise paragraphs are packed
greedily with a `"\n\n"` joiner, flushing (stripped) when the next
paragraph would overflow; the final chunk is flushed stripped. -/
def packParagraphs (maxTokens : Nat) : List (List Char) → List Char → List (List Char)
  | [], current => if current ≠ [] then [pyStrip current] else []
  | p :: ps, current =>
    if estimateTokens p > maxTokens then
      (if current ≠ [] then [pyStrip current] else []) ++
        splitLongParagraph p maxTokens ++ packParagraphs maxTokens ps []
    else if estimateTokens (current ++ p) ≤ maxTokens then
      packParagraphs maxTokens ps (current ++ p ++ ['\n', '\n'])
    else
      (if current ≠ [] then [pyStrip current] else []) ++
        packParagraphs maxTokens ps (p ++ ['\n', '\n'])

/-- Source `parser_service.py` lines 35–76, `_split_text_into_chunks`: a text
whose estimate fits the budget is returned as the single chunk `[text]`
(as-is, not stripped — and an empty text takes this branch, producing
`[[]]`, the one-element list holding the empty chunk); otherwise the
text is split on blank lines and the paragraphs are packed. -/
def splitTextIntoChunks (text : List Char) (maxTokens : Nat) : List (List Char) :=
  if estimateTokens text ≤ maxTokens then [text]
  else packParagraphs maxTokens (splitParagraphs text) []

/-! Ingestion (`services/parser_service.py` lines 106–214)

`parse_file` after the format-specific decoding (decoding is an external
collaborator).  The embedding provider is a caller-supplied oracle
`embed`; `failAt n` injects a durable-store failure into the `n`-th
`create_memory` call (0 = the primary chunk, `i + 1` = secondary chunk
`i`); `ids n` supplies the uuid for that call. -/

/-- Result of `parse_file` as seen by the caller: the raised
`HTTPException(500)` of the outer handler, or the success payload with
the primary `memory_id` and the `memory_id`s of the secondary chunks
that were appended (`None` ids arise only in DynamoDB-disabled mode). -/
inductive ParseOutcome
  | httpError
  | success (memory_id : Option String) (additional : List (Option String))
  deriving DecidableEq

/-- The secondary-chunk loop, `parser_service.py` lines 160–202: each
chunk is embedded and persisted inside its own `try`; a failure of
either step is caught and the loop continues with the next chunk; a
successful `create_memory` appends its id to `additional_memories`. -/
def processChunks (embed : String → Except Unit (List ℝ))
    (failAt : Nat → Option PutFail) (ids : Nat → String) (mtype user : String) :
    DBState → List String → Nat → List (Option String) × DBState
  | st, [], _ => ([], st)
  | st, c :: cs, i =>
    match embed c with
    | .error _ => processChunks embed failAt ids mtype user st cs (i + 1)
    | .ok emb =>
      match createMemory st (failAt i) (ids i) c mtype emb user with
      | (.raised, st1) => processChunks embed failAt ids mtype user st1 cs (i + 1)
      | (.created cid, st1) =>
        let rest := processChunks embed failAt ids mtype user st1 cs (i + 1)
        (some cid :: rest.1, rest.2)
      | (.skipped, st1) =>
        let rest := processChunks embed failAt ids mtype user st1 cs (i + 1)
        (none :: rest.1, rest.2)

/-- Source `parser_service.py` lines 135–210, the persistence phase of
`parse_file`: embed the primary chunk and persist it — a failure of
either step escapes the function's `try` and surfaces as
`HTTPException(500)`, with whatever partial effects the failing call
already performed left in place — then run the secondary-chunk loop and
return the success payload. -/
def parseFileCore (st : DBState) (embed : String → Except Unit (List ℝ))
    (failAt : Nat → Option PutFail) (ids : Nat → String)
    (text mtype : String) (additionalChunks : List String) (user : String) :
    ParseOutcome × DBState :=
  match embed text with
  | .error _ => (.httpError, st)
  | .ok emb =>
    match createMemory st (failAt 0) (ids 0) text mtype emb user with
    | (.raised, st1) => (.httpError, st1)
    | (.created mid, st1) =>
      let rest := processChunks embed failAt ids mtype user st1 additionalChunks 1
      (.success (some mid) rest.1, rest.2)
    | (.skipped, st1) =>
      let rest := processChunks embed failAt ids mtype user st1 additionalChunks 1
      (.success none rest.1, rest.2)

/-- Follows the words of the secondary-chunk claim (C7), not the
source: the expected `additional_memories` ids for a service whose
DynamoDB is available — exactly the secondary chunks whose embedding
call succeeds and whose `create_memory` call is not made to fail, each
contributing the id its `create_memory` call was given. -/
def specSecondaryIds (embed : String → Except Unit (List ℝ))
    (failAt : Nat → Option PutFail) (ids : Nat → String) :
    List String → Nat → List (Option String)
  | [], _ => []
  | c :: cs, i =>
    match embed c with
    | .error _ => specSecondaryIds embed failAt ids cs (i + 1)
    | .ok _ =>
      match failAt i with
      | none => some (ids i) :: specSecondaryIds embed failAt ids cs (i + 1)
      | some _ => specSecondaryIds embed failAt ids cs (i + 1)

/-- Source `routers/search.py` lines 131–175, the
`POST /memories/{memory_id}/related` handler: 404 when the memory is
absent, 403 when its `user_id` differs from the authenticated caller;
otherwise it calls
`database_service.get_related_memories(memory_id=..., user_id=current_user.id, limit=...)`
(lines 157–161).  The service method has no `user_id` parameter, so that
call raises `TypeError` before the method body runs; the handler's
`except Exception` turns it into HTTP 500. -/
def getRelatedMemoriesRoute (st : DBState) (memory_id : String) (_limit : Nat)
    (current_user : String) : Except Nat (List SearchResult) :=
  match getMemoryById st memory_id with
  | none => .error 404
  | some m =>
    if m.user_id ≠ current_user then .error 403
    else .error 500

/-! Concrete fixtures used by the witnesses and counterexamples below. -/

/-- The ingested text of end-to-end scenario A. -/
def jsText : String := "JavaScript is a language used for web development."

/-- A fresh service state: DynamoDB available, nothing stored. -/
def stEmpty : DBState := ⟨false, [], [], []⟩

/-- The memory item scenario A creates for owner `u1`. -/
def mJS : MemoryRec := ⟨"m1", "u1", jsText, "text"⟩

/-- The service state right after scenario A's `create_memory`: both
tables hold the item, and the `vector_store` entry has no `user_id`. -/
def stC2post : DBState :=
  ⟨false, [mJS], [⟨"m1", "u1", [1]⟩], [("m1", ⟨[1], "m1", none⟩)]⟩

/-- The same state after a process restart (`_load_vectors_to_memory`),
whose entries do carry the owner. -/
def stReload : DBState := loadVectorsToMemory stC2post

/-- A memory item owned by `alice`. -/
def mAlice : MemoryRec := ⟨"a1", "alice", "alice memo", "text"⟩

/-- A state holding only `alice`'s memory, with a consistent cache. -/
def stAlice : DBState :=
  ⟨false, [mAlice], [⟨"a1", "alice", [1]⟩], [("a1", ⟨[1], "a1", some "alice"⟩)]⟩

/-! Helper lemmas: the dot product, Cauchy–Schwarz, and the similarity
bounds. -/

theorem dotList_cons (a b : ℝ) (as bs : List ℝ) :
    dotList (a :: as) (b :: bs) = a * b + dotList as bs := rfl

theorem dotList_nil_left (v : List ℝ) : dotList [] v = 0 := rfl

theorem dotList_nil_right (q : List ℝ) : dotList q [] = 0 := by cases q <;> rfl

theorem dotList_self_nonneg (v : List ℝ) : 0 ≤ dotList v v := by
  induction v with
  | nil => simp [dotList]
  | cons a as ih =>
    rw [dotList_cons]
    have := mul_self_nonneg a
    linarith

theorem dotList_self_pos {v : List ℝ} (h : ∃ x ∈ v, x ≠ 0) : 0 < dotList v v := by
  induction v with
  | nil => simp at h
  | cons a as ih =>
    rw [dotList_cons]
    rcases h with ⟨x, hx, hne⟩
    rcases List.mem_cons.mp hx with rfl | hmem
    · have h1 : 0 < x * x := mul_self_pos.mpr hne
      have h2 := dotList_self_nonneg as
      linarith
    · have h2 := ih ⟨x, hmem, hne⟩
      have h3 := mul_self_nonneg a
      linarith

/-- Cauchy–Schwarz for `dotList`, proved by induction on the lists. -/
theorem dotList_sq_le (q v : List ℝ) : dotList q v ^ 2 ≤ dotList q q * dotList v v := by
  induction q generalizing v with
  | nil =>
    rw [dotList_nil_left, dotList_nil_left]
    norm_num
  | cons a as ih =>
    cases v with
    | nil =>
      rw [dotList_nil_right, dotList_nil_right]
      norm_num
    | cons b bs =>
      have h := ih bs
      have hQ := dotList_self_nonneg as
      have hV := dotList_self_nonneg bs
      rw [dotList_cons, dotList_cons, dotList_cons]
      rcases eq_or_lt_of_le hV with hV0 | hVpos
      · have hS0 : dotList as bs = 0 := by nlinarith [sq_nonneg (dotList as bs)]
        rw [hS0, ← hV0]
        nlinarith [mul_nonneg hQ (mul_self_nonneg b), mul_self_nonneg (a * b)]
      · have hD : 0 ≤ dotList as as * dotList bs bs - dotList as bs ^ 2 := by linarith
        nlinarith [sq_nonneg (a * dotList bs bs - b * dotList as bs),
          mul_nonneg (mul_self_nonneg b) hD, mul_nonneg hVpos.le hD]

theorem normOf_nonneg (v : List ℝ) : 0 ≤ normOf v := Real.sqrt_nonneg _

theorem abs_dotList_le (q v : List ℝ) : |dotList q v| ≤ normOf q * normOf v := by
  rw [normOf, normOf, ← Real.sqrt_mul (dotList_self_nonneg q),
    ← Real.sqrt_sq_eq_abs]
  exact Real.sqrt_le_sqrt (dotList_sq_le q v)

theorem abs_calculateSimilarity_le_one {q v : List ℝ}
    (h : normOf q * normOf v ≠ 0) : |calculateSimilarity q v| ≤ 1 := by
  have hnn : 0 ≤ normOf q * normOf v := mul_nonneg (normOf_nonneg q) (normOf_nonneg v)
  have hpos : 0 < normOf q * normOf v := lt_of_le_of_ne hnn (Ne.symm h)
  rw [calculateSimilarity, abs_div, abs_of_pos hpos, div_le_one hpos]
  exact abs_dotList_le q v

theorem calculateSimilarity_self_eq_one {v : List ℝ} (h : dotList v v ≠ 0) :
    calculateSimilarity v v = 1 := by
  rw [calculateSimilarity, normOf, Real.mul_self_sqrt (dotList_self_nonneg v), div_self h]

theorem simFloat_eq_some {q v : List ℝ} {s : ℝ} (h : simFloat q v = some s) :
    normOf q * normOf v ≠ 0 ∧ s = calculateSimilarity q v := by
  unfold simFloat at h
  by_cases hc : normOf q * normOf v = 0
  · rw [if_pos hc] at h
    exact absurd h (by simp)
  · rw [if_neg hc] at h
    exact ⟨hc, (Option.some.inj h).symm⟩

theorem simFloat_none_left {q v : List ℝ} (h : normOf q = 0) : simFloat q v = none := by
  unfold simFloat
  rw [h, zero_mul, if_pos rfl]

/-! Helper lemmas: inverting a successful search hit. -/

theorem getMemoryById_eq_some {st : DBState} {k : String} {m : MemoryRec}
    (h : getMemoryById st k = some m) : m.id = k ∧ m ∈ st.memories := by
  unfold getMemoryById at h
  by_cases hd : st.dynamodbDisabled
  · rw [if_pos hd] at h
    exact absurd h (by simp)
  · rw [if_neg hd] at h
    have hp := List.find?_some h
    simp only [beq_iff_eq] at hp
    exact ⟨hp, List.mem_of_find?_eq_some h⟩

theorem scoreEntry_eq_some_inv {st : DBState} {q : List ℝ} {uid : String} {θ : ℝ}
    {p : String × VectorEntry} {r : SearchResult}
    (h : scoreEntry st q uid θ p = some r) :
    p.2.user_id = some uid ∧ simFloat q p.2.embedding = some r.similarity_score ∧
    r.similarity_score ≥ θ ∧ getMemoryById st p.1 = some r.memory ∧
    r.memory.user_id = uid ∧ r.memory.id = p.1 := by
  unfold scoreEntry at h
  by_cases h1 : p.2.user_id ≠ some uid
  · rw [if_pos h1] at h
    exact absurd h (by simp)
  · rw [if_neg h1] at h
    cases hsim : simFloat q p.2.embedding with
    | none => rw [hsim] at h; exact absurd h (by simp)
    | some s =>
      rw [hsim, Option.some_bind] at h
      by_cases h2 : s ≥ θ
      · rw [if_pos h2] at h
        cases hget : getMemoryById st p.1 with
        | none => rw [hget] at h; exact absurd h (by simp)
        | some mem =>
          rw [hget, Option.some_bind] at h
          by_cases h3 : mem.user_id = uid
          · rw [if_pos h3] at h
            have hr := Option.some.inj h
            subst hr
            exact ⟨not_not.mp h1, rfl, h2, rfl, h3,
              (getMemoryById_eq_some hget).1⟩
          · rw [if_neg h3] at h
            exact absurd h (by simp)
      · rw [if_neg h2] at h
        exact absurd h (by simp)

theorem mem_insertDesc {x a : SearchResult} {l : List SearchResult} :
    a ∈ insertDesc x l ↔ a = x ∨ a ∈ l := by
  induction l with
  | nil => simp [insertDesc]
  | cons y ys ih =>
    unfold insertDesc
    by_cases hc : x.similarity_score ≥ y.similarity_score
    · rw [if_pos hc]
      simp [List.mem_cons]
    · rw [if_neg hc]
      simp only [List.mem_cons, ih]
      tauto

theorem mem_sortDesc {a : SearchResult} {l : List SearchResult} :
    a ∈ sortDesc l ↔ a ∈ l := by
  induction l with
  | nil => simp [sortDesc]
  | cons x xs ih => simp [sortDesc, mem_insertDesc, ih]

theorem mem_semanticSearch_inv {st : DBState} {q : List ℝ} {uid : String}
    {lim : Nat} {θ : ℝ} {r : SearchResult}
    (h : r ∈ semanticSearch st q uid lim θ) :
    ∃ p ∈ st.vector_store, scoreEntry st q uid θ p = some r := by
  unfold semanticSearch at h
  exact List.mem_filterMap.mp (mem_sortDesc.mp (List.take_subset _ _ h))

theorem semanticSearch_eq_nil {st : DBState} {q : List ℝ} {uid : String}
    {lim : Nat} {θ : ℝ}
    (h : ∀ p ∈ st.vector_store, scoreEntry st q uid θ p = none) :
    semanticSearch st q uid lim θ = [] := by
  unfold semanticSearch
  rw [List.filterMap_eq_nil_iff.mpr h, show sortDesc [] = [] from rfl,
    List.take_nil]

/-! Helper lemmas: evaluating the search pipeline on the concrete
one-entry fixtures. -/

theorem dotList_one_one : dotList [(1 : ℝ)] [1] = 1 := by
  simp [dotList]

theorem normOf_one : normOf [(1 : ℝ)] = 1 := by
  rw [normOf, dotList_one_one, Real.sqrt_one]

theorem normOf_zero_singleton : normOf [(0 : ℝ)] = 0 := by
  have h : dotList [(0 : ℝ)] [0] = 0 := by simp [dotList]
  rw [normOf, h, Real.sqrt_zero]

theorem simFloat_one_one : simFloat [(1 : ℝ)] [1] = some 1 := by
  rw [simFloat, normOf_one]
  rw [if_neg (by norm_num)]
  rw [calculateSimilarity, dotList_one_one, normOf_one]
  norm_num

theorem scoreEntry_stReload_eval :
    scoreEntry stReload [(1 : ℝ)] "u1" (1 / 10) ("m1", ⟨[1], "m1", some "u1"⟩) =
      some ⟨mJS, 1⟩ := by
  unfold scoreEntry
  rw [if_neg (by simp)]
  have hemb : (("m1", (⟨[1], "m1", some "u1"⟩ : VectorEntry)).2).embedding = [(1 : ℝ)] := rfl
  rw [hemb, simFloat_one_one, Option.some_bind]
  rw [if_pos (by norm_num)]
  have hm : getMemoryById stReload "m1" = some mJS := rfl
  rw [hm, Option.some_bind]
  rw [if_pos (show mJS.user_id = "u1" from rfl)]

theorem semanticSearch_stReload_eval :
    semanticSearch stReload [(1 : ℝ)] "u1" 10 (1 / 10) = [⟨mJS, 1⟩] := by
  unfold semanticSearch
  have hvs : stReload.vector_store = [("m1", ⟨[1], "m1", some "u1"⟩)] := rfl
  rw [hvs, List.filterMap_cons_some scoreEntry_stReload_eval,
    List.filterMap_nil]
  rfl

/-! Helper lemmas: `create_memory` and the ingestion loop. -/

theorem createMemory_snd_disabled (st : DBState) (fail : Option PutFail)
    (newId content memory_type : String) (embedding : List ℝ) (user_id : String) :
    ((createMemory st fail newId content memory_type embedding user_id).2).dynamodbDisabled =
      st.dynamodbDisabled := by
  unfold createMemory
  by_cases hd : st.dynamodbDisabled
  · rw [if_pos hd]
  · rw [if_neg hd]
    by_cases h1 : fail = some .memPut
    · rw [if_pos h1]
    · rw [if_neg h1]
      by_cases h2 : fail = some .vecPut
      · rw [if_pos h2]
      · rw [if_neg h2]

theorem createMemory_fst (st : DBState) (fail : Option PutFail)
    (newId content memory_type : String) (embedding : List ℝ) (user_id : String)
    (hd : st.dynamodbDisabled = false) :
    (createMemory st fail newId content memory_type embedding user_id).1 =
      match fail with
      | none => .created newId
      | some _ => .raised := by
  unfold createMemory
  rw [hd]
  cases fail with
  | none => rfl
  | some pf => cases pf <;> rfl

theorem processChunks_fst_eq_spec (embed : String → Except Unit (List ℝ))
    (failAt : Nat → Option PutFail) (ids : Nat → String) (mtype user : String)
    (chunks : List String) :
    ∀ (st : DBState) (i : Nat), st.dynamodbDisabled = false →
      (processChunks embed failAt ids mtype user st chunks i).1 =
        specSecondaryIds embed failAt ids chunks i := by
  induction chunks with
  | nil => intro st i _; rfl
  | cons c cs ih =>
    intro st i hd
    cases hemb : embed c with
    | error e =>
      simp only [processChunks, specSecondaryIds, hemb]
      exact ih st (i + 1) hd
    | ok emb =>
      have hd1 := createMemory_snd_disabled st (failAt i) (ids i) c mtype emb user
      rw [hd] at hd1
      have hfst := createMemory_fst st (failAt i) (ids i) c mtype emb user hd
      cases hcm : createMemory st (failAt i) (ids i) c mtype emb user with
      | mk res st1 =>
        rw [hcm] at hfst hd1
        simp only at hfst hd1
        cases hfail : failAt i with
        | none =>
          rw [hfail] at hfst hcm
          simp only at hfst
          subst hfst
          simp only [processChunks, specSecondaryIds, hemb, hcm, hfail]
          exact congrArg (List.cons (some (ids i))) (ih st1 (i + 1) hd1)
        | some pf =>
          rw [hfail] at hfst hcm
          simp only at hfst
          subst hfst
          simp only [processChunks, specSecondaryIds, hemb, hcm, hfail]
          exact ih st1 (i + 1) hd1

/-! Claim theorems. -/

/-- C1 (confirmed): owner isolation of `semantic_search` — for every
cache state and query, every result returned to user `uid` resolves to
a memory whose `user_id` is `uid`, and stems from a cache entry whose
cached owner is `some uid`; entries with a different (or missing)
cached owner are skipped and resolved memories with a different owner
are excluded, regardless of similarity. -/
theorem C1_search_owner_isolation (st : DBState) (q : List ℝ) (uid : String)
    (lim : Nat) (θ : ℝ) (r : SearchResult)
    (h : r ∈ semanticSearch st q uid lim θ) :
    r.memory.user_id = uid ∧
      ∃ p ∈ st.vector_store, p.1 = r.memory.id ∧ p.2.user_id = some uid := by
  obtain ⟨p, hp, hs⟩ := mem_semanticSearch_inv h
  obtain ⟨huser, _, _, _, hmu, hid⟩ := scoreEntry_eq_some_inv hs
  exact ⟨hmu, p, hp, hid.symm, huser⟩

/-- Witness for C1: at the reloaded one-entry state the search returns
the memory, and the theorem yields its ownership facts. -/
theorem C1_search_owner_isolation_witness :
    (⟨mJS, 1⟩ : SearchResult).memory.user_id = "u1" ∧
      ∃ p ∈ stReload.vector_store,
        p.1 = (⟨mJS, 1⟩ : SearchResult).memory.id ∧ p.2.user_id = some "u1" :=
  C1_search_owner_isolation stReload [(1 : ℝ)] "u1" 10 (1 / 10) ⟨mJS, 1⟩
    (by rw [semanticSearch_stReload_eval]; exact List.mem_singleton_self _)

/-- C2 (refuted — code bug): the `vector_store` entry written by
`create_memory` does NOT carry the owner (it is `{embedding, memory_id}`
with no `user_id`), so the memory ingested for `u1` in scenario A is
invisible to `u1`'s own `semantic_search` in the same process — the
search returns `[]`, not the memory ranked first — even though its
query/vector similarity is 1 > 0.1, as the last conjunct shows: after
`_load_vectors_to_memory` rebuilds the entry with its owner, the same
search returns the memory with similarity 1. -/
theorem C2_create_cache_entry_lacks_owner :
    createMemory stEmpty none "m1" jsText "text" [1] "u1" = (.created "m1", stC2post)
    ∧ stC2post.vector_store = [("m1", ⟨[1], "m1", none⟩)]
    ∧ semanticSearch stC2post [(1 : ℝ)] "u1" 10 (1 / 10) = []
    ∧ semanticSearch stReload [(1 : ℝ)] "u1" 10 (1 / 10) = [⟨mJS, 1⟩] := by
  refine ⟨rfl, rfl, ?_, semanticSearch_stReload_eval⟩
  apply semanticSearch_eq_nil
  intro p hp
  have hpe : p = ("m1", ⟨[1], "m1", none⟩) := by
    simpa [stC2post] using hp
  subst hpe
  unfold scoreEntry
  rw [if_pos (by simp)]

/-- C3 (refuted — code bug): the by-id GET and DELETE handlers declare
no authentication dependency and perform no ownership check — they
receive no caller identity at all — so any caller (in particular one
whose owner id differs from the memory's) gets `alice`'s memory from
the GET, and the DELETE removes the memory, its vector record and its
cache entry; no `PermissionError` is raised and the state is not left
unchanged. -/
theorem C3_by_id_routes_skip_owner_check :
    getMemoryByIdRoute stAlice "a1" = .ok mAlice
    ∧ (deleteMemoryRoute stAlice "a1").1 = .ok ()
    ∧ (deleteMemoryRoute stAlice "a1").2.memories = []
    ∧ (deleteMemoryRoute stAlice "a1").2.vectors = []
    ∧ (deleteMemoryRoute stAlice "a1").2.vector_store = [] :=
  ⟨rfl, rfl, rfl, rfl, rfl⟩

/-- C4 (refuted — code bug): `get_related_memories` never completes
normally on a cached memory.  The router passes `user_id=` to a service
method whose signature has no such parameter, so the call raises
`TypeError` and surfaces as HTTP 500 even for the legitimate owner; the
service method itself also raises `TypeError` at its inner
`semantic_search` call, whose required `user_id` argument it omits. -/
theorem C4_get_related_memories_raises :
    getRelatedMemoriesRoute stAlice "a1" 5 "alice" = .error 500
    ∧ getRelatedMemoriesSvc stAlice "a1" 5 = .error () :=
  ⟨rfl, rfl⟩

/-- C5 (confirmed): deletion completeness — after a successful
`delete_memory(id)`, `get_memory_by_id(id)` is absent, `id` is no
longer a key of the vector cache, and no subsequent `semantic_search`
over any owner returns a result with that memory id. -/
theorem C5_deletion_completeness (st : DBState) (id : String) (q : List ℝ)
    (uid : String) (lim : Nat) (θ : ℝ)
    (hok : (deleteMemory st id).2 = true) :
    getMemoryById (deleteMemory st id).1 id = none
    ∧ id ∉ ((deleteMemory st id).1.vector_store.map (fun p => p.1))
    ∧ id ∉ ((semanticSearch (deleteMemory st id).1 q uid lim θ).map
        (fun r => r.memory.id)) := by
  by_cases hd : st.dynamodbDisabled
  · exfalso
    unfold deleteMemory at hok
    rw [if_pos hd] at hok
    exact Bool.false_ne_true hok
  · have hdel : deleteMemory st id =
        ({ st with
            memories := st.memories.filter (fun m => !(m.id == id)),
            vectors := st.vectors.filter (fun r => !(r.id == id)),
            vector_store := st.vector_store.filter (fun p => !(p.1 == id)) },
          true) := by
      unfold deleteMemory
      rw [if_neg hd]
    refine ⟨?_, ?_, ?_⟩
    · rw [hdel]
      unfold getMemoryById
      rw [if_neg hd]
      cases hf : (st.memories.filter (fun m => !(m.id == id))).find?
          (fun m => m.id == id) with
      | none => rfl
      | some m =>
        exfalso
        have h1 := List.find?_some hf
        have h3 := (List.mem_filter.mp (List.mem_of_find?_eq_some hf)).2
        rw [h1] at h3
        exact Bool.false_ne_true h3
    · rw [hdel]
      intro hmem
      obtain ⟨p, hp, hfst⟩ := List.mem_map.mp hmem
      have h3 := (List.mem_filter.mp hp).2
      rw [hfst] at h3
      simp at h3
    · intro hmem
      obtain ⟨r, hr, hid⟩ := List.mem_map.mp hmem
      obtain ⟨p, hp, hs⟩ := mem_semanticSearch_inv hr
      have hpid := (scoreEntry_eq_some_inv hs).2.2.2.2.2
      rw [hdel] at hp
      have h3 := (List.mem_filter.mp hp).2
      have hp1 : p.1 = id := by rw [← hpid, hid]
      rw [hp1] at h3
      simp at h3

/-- Witness for C5: deleting `alice`'s only memory at the concrete
state leaves no trace anywhere. -/
theorem C5_deletion_completeness_witness :
    getMemoryById (deleteMemory stAlice "a1").1 "a1" = none
    ∧ "a1" ∉ ((deleteMemory stAlice "a1").1.vector_store.map (fun p => p.1))
    ∧ "a1" ∉ ((semanticSearch (deleteMemory stAlice "a1").1 [(1 : ℝ)] "alice" 10
        (1 / 10)).map (fun r => r.memory.id)) :=
  C5_deletion_completeness stAlice "a1" [(1 : ℝ)] "alice" 10 (1 / 10) rfl

/-- C6 counterexample: with the vector-record `put_item` of the first
chunk failing, `parse_file` aborts with the 500 error as claimed, but
the durable record store DOES hold a record of the failed memory — the
memories-table row written just before the failing vector write —
refuting "neither the durable store nor the vector cache holds any
record of the failed memory". -/
theorem C6_first_chunk_counterexample :
    (parseFileCore stEmpty (fun _ => .ok [(1 : ℝ)]) (fun _ => some .vecPut)
        (fun _ => "p0") "doc text" "document" [] "u1").1 = .httpError
    ∧ (parseFileCore stEmpty (fun _ => .ok [(1 : ℝ)]) (fun _ => some .vecPut)
        (fun _ => "p0") "doc text" "document" [] "u1").2.memories =
      [⟨"p0", "u1", "doc text", "document"⟩]
    ∧ (parseFileCore stEmpty (fun _ => .ok [(1 : ℝ)]) (fun _ => some .vecPut)
        (fun _ => "p0") "doc text" "document" [] "u1").2.vector_store = [] :=
  ⟨rfl, rfl, rfl⟩

/-- C6 amended: a failure of the embedding provider or of either
durable-store write on the first chunk aborts the whole ingestion with
the error surfaced to the caller, the vector cache and the vectors
table are never touched, and the durable store is wholly untouched
except when the memory-row write succeeded and the vector-row write
failed — in that one case (the counterexample) the memory row of the
failed chunk remains, because `create_memory` has no cross-item
rollback. -/
theorem C6_first_chunk_abort_amended (st : DBState)
    (embed : String → Except Unit (List ℝ)) (failAt : Nat → Option PutFail)
    (ids : Nat → String) (text mtype : String) (chunks : List String) (user : String)
    (hd : st.dynamodbDisabled = false)
    (hfail : embed text = .error () ∨ failAt 0 = some .memPut ∨
      failAt 0 = some .vecPut) :
    (parseFileCore st embed failAt ids text mtype chunks user).1 = .httpError
    ∧ (parseFileCore st embed failAt ids text mtype chunks user).2.vector_store =
        st.vector_store
    ∧ (parseFileCore st embed failAt ids text mtype chunks user).2.vectors =
        st.vectors
    ∧ ((embed text = .error () ∨ failAt 0 = some .memPut) →
        (parseFileCore st embed failAt ids text mtype chunks user).2 = st) := by
  cases hemb : embed text with
  | error e =>
    have hP : parseFileCore st embed failAt ids text mtype chunks user =
        (.httpError, st) := by
      simp only [parseFileCore, hemb]
    rw [hP]
    exact ⟨rfl, rfl, rfl, fun _ => rfl⟩
  | ok emb =>
    rcases hfail with hfail | hfail | hfail
    · rw [hemb] at hfail
      exact absurd hfail (by simp)
    · have hcm : createMemory st (failAt 0) (ids 0) text mtype emb user =
          (.raised, st) := by
        simp [createMemory, hd, hfail]
      have hP : parseFileCore st embed failAt ids text mtype chunks user =
          (.httpError, st) := by
        simp only [parseFileCore, hemb, hcm]
      rw [hP]
      exact ⟨rfl, rfl, rfl, fun _ => rfl⟩
    · have hcm : createMemory st (failAt 0) (ids 0) text mtype emb user =
          (.raised,
            { st with memories := putMemRecord st.memories ⟨ids 0, user, text, mtype⟩ }) := by
        simp [createMemory, hd, hfail]
      have hP : parseFileCore st embed failAt ids text mtype chunks user =
          (.httpError,
            { st with memories := putMemRecord st.memories ⟨ids 0, user, text, mtype⟩ }) := by
        simp only [parseFileCore, hemb, hcm]
      rw [hP]
      refine ⟨rfl, rfl, rfl, ?_⟩
      intro hor
      rcases hor with h | h
      · exact absurd h (by simp)
      · have hcontra := hfail.symm.trans h
        simp at hcontra

/-- Witness for C6 amended: an embedding-provider failure on the first
chunk aborts with nothing written anywhere. -/
theorem C6_first_chunk_abort_amended_witness :
    (parseFileCore stEmpty (fun _ => .error ()) (fun _ => none) (fun _ => "p0")
        "doc text" "document" [] "u1").1 = .httpError
    ∧ (parseFileCore stEmpty (fun _ => .error ()) (fun _ => none) (fun _ => "p0")
        "doc text" "document" [] "u1").2.vector_store = stEmpty.vector_store
    ∧ (parseFileCore stEmpty (fun _ => .error ()) (fun _ => none) (fun _ => "p0")
        "doc text" "document" [] "u1").2.vectors = stEmpty.vectors
    ∧ (((fun (_ : String) => (.error () : Except Unit (List ℝ))) "doc text" = .error ()
          ∨ (fun (_ : Nat) => (none : Option PutFail)) 0 = some .memPut) →
        (parseFileCore stEmpty (fun _ => .error ()) (fun _ => none) (fun _ => "p0")
          "doc text" "document" [] "u1").2 = stEmpty) :=
  C6_first_chunk_abort_amended stEmpty (fun _ => .error ()) (fun _ => none)
    (fun _ => "p0") "doc text" "document" [] "u1" rfl (Or.inl rfl)

/-- C7 (confirmed): secondary-chunk fault tolerance — when the primary
chunk embeds and persists successfully, ingestion reports success with
the primary memory id, and the additional ids are exactly those of the
secondary chunks whose embedding and persistence both succeeded; a
failing secondary chunk is skipped without failing the request. -/
theorem C7_secondary_chunk_fault_tolerance (st : DBState)
    (embed : String → Except Unit (List ℝ)) (failAt : Nat → Option PutFail)
    (ids : Nat → String) (text mtype : String) (chunks : List String) (user : String)
    (emb : List ℝ)
    (hd : st.dynamodbDisabled = false) (hemb : embed text = .ok emb)
    (hfail0 : failAt 0 = none) :
    (parseFileCore st embed failAt ids text mtype chunks user).1 =
      .success (some (ids 0)) (specSecondaryIds embed failAt ids chunks 1) := by
  have hfst := createMemory_fst st (failAt 0) (ids 0) text mtype emb user hd
  have hd1 := createMemory_snd_disabled st (failAt 0) (ids 0) text mtype emb user
  rw [hd] at hd1
  cases hcm : createMemory st (failAt 0) (ids 0) text mtype emb user with
  | mk res st1 =>
    rw [hcm] at hfst hd1
    rw [hfail0] at hfst hcm
    simp only at hfst hd1
    subst hfst
    simp only [parseFileCore, hemb, hfail0, hcm]
    exact congrArg (ParseOutcome.success (some (ids 0)))
      (processChunks_fst_eq_spec embed failAt ids mtype user chunks st1 1 hd1)

/-- Witness for C7: three secondary chunks, one failing to embed and one
failing to persist; the result is success with the primary id and
exactly the one surviving secondary id. -/
theorem C7_secondary_chunk_fault_tolerance_witness :
    (parseFileCore stEmpty
        (fun s => if s = "bad" then .error () else .ok [(1 : ℝ)])
        (fun n => if n = 3 then some .memPut else none)
        (fun n => ["p0", "s1", "s2", "s3"].getD n "z")
        "t" "text" ["c1", "bad", "c2"] "u1").1 =
      .success (some "p0") [some "s1"] := by
  have h := C7_secondary_chunk_fault_tolerance stEmpty
      (fun s => if s = "bad" then .error () else .ok [(1 : ℝ)])
      (fun n => if n = 3 then some .memPut else none)
      (fun n => ["p0", "s1", "s2", "s3"].getD n "z")
      "t" "text" ["c1", "bad", "c2"] "u1" [(1 : ℝ)] rfl rfl rfl
  rw [h]
  rfl

/-- C8 counterexample: chunking the empty input does not give the empty
chunk list — the estimate 0 fits any budget, so the first branch of
`_split_text_into_chunks` returns the one-element list holding the
empty chunk. -/
theorem C8_empty_input_counterexample :
    splitTextIntoChunks [] 6000 = [[]] ∧ ([[]] : List (List Char)) ≠ [] :=
  ⟨rfl, by simp⟩

/-- C8 amended: a text whose estimated token count is at most
`max_tokens` (a text exactly at the budget included) is returned as the
single chunk equal to the input as given — not whitespace-trimmed — and
in particular the empty input yields `[[]]`, the one-element list
holding the empty chunk, not the empty list. -/
theorem C8_small_input_single_chunk (t : List Char) (m : Nat)
    (h : estimateTokens t ≤ m) : splitTextIntoChunks t m = [t] := by
  unfold splitTextIntoChunks
  rw [if_pos h]

/-- Witness for C8 amended: an untrimmed small input comes back as one
chunk, spaces and all. -/
theorem C8_small_input_single_chunk_witness :
    splitTextIntoChunks [' ', 'h', 'i', ' '] 6000 = [[' ', 'h', 'i', ' ']] :=
  C8_small_input_single_chunk [' ', 'h', 'i', ' '] 6000 (by decide)

/-- C9 (confirmed): zero-norm safety — a zero-norm query makes every
similarity NaN, so the search returns the empty list; and every score a
search does return arises from a pair whose two norms are nonzero and
equals their well-defined cosine similarity, so no NaN is produced in
or propagated to the returned scores. -/
theorem C9_zero_norm_excluded (st : DBState) (q : List ℝ) (uid : String)
    (lim : Nat) (θ : ℝ) :
    (normOf q = 0 → semanticSearch st q uid lim θ = [])
    ∧ ∀ r ∈ semanticSearch st q uid lim θ,
        ∃ p ∈ st.vector_store, normOf q ≠ 0 ∧ normOf p.2.embedding ≠ 0 ∧
          r.similarity_score = calculateSimilarity q p.2.embedding := by
  constructor
  · intro h0
    apply semanticSearch_eq_nil
    intro p hp
    unfold scoreEntry
    by_cases h1 : p.2.user_id ≠ some uid
    · rw [if_pos h1]
    · rw [if_neg h1, simFloat_none_left h0]
      rfl
  · intro r hr
    obtain ⟨p, hp, hs⟩ := mem_semanticSearch_inv hr
    obtain ⟨_, hsim, _, _, _, _⟩ := scoreEntry_eq_some_inv hs
    obtain ⟨hden, hval⟩ := simFloat_eq_some hsim
    refine ⟨p, hp, ?_, ?_, hval⟩
    · intro h0
      exact hden (by rw [h0, zero_mul])
    · intro h0
      exact hden (by rw [h0, mul_zero])

/-- Witness for C9: searching the populated reloaded state with the
zero vector returns the empty list. -/
theorem C9_zero_norm_excluded_witness :
    semanticSearch stReload [(0 : ℝ)] "u1" 10 (1 / 10) = [] :=
  (C9_zero_norm_excluded stReload [(0 : ℝ)] "u1" 10 (1 / 10)).1 normOf_zero_singleton

/-- C10 (confirmed): for any two nonzero vectors the computed cosine
similarity lies in `[-1, 1]`; a nonzero vector compared with itself has
similarity exactly 1; and a search with threshold 1.1 returns the empty
list for every cache state, query and owner. -/
theorem C10_cosine_range_and_vacuous_threshold :
    (∀ q v : List ℝ, (∃ x ∈ q, x ≠ 0) → (∃ y ∈ v, y ≠ 0) →
        -1 ≤ calculateSimilarity q v ∧ calculateSimilarity q v ≤ 1)
    ∧ (∀ v : List ℝ, (∃ y ∈ v, y ≠ 0) → calculateSimilarity v v = 1)
    ∧ ∀ (st : DBState) (q : List ℝ) (uid : String) (lim : Nat),
        semanticSearch st q uid lim 1.1 = [] := by
  refine ⟨?_, ?_, ?_⟩
  · intro q v hq hv
    have hq1 : 0 < normOf q := Real.sqrt_pos.mpr (dotList_self_pos hq)
    have hv1 : 0 < normOf v := Real.sqrt_pos.mpr (dotList_self_pos hv)
    have hne : normOf q * normOf v ≠ 0 := ne_of_gt (mul_pos hq1 hv1)
    exact abs_le.mp (abs_calculateSimilarity_le_one hne)
  · intro v hv
    exact calculateSimilarity_self_eq_one (ne_of_gt (dotList_self_pos hv))
  · intro st q uid lim
    apply semanticSearch_eq_nil
    intro p hp
    unfold scoreEntry
    by_cases h1 : p.2.user_id ≠ some uid
    · rw [if_pos h1]
    · rw [if_neg h1]
      cases hsim : simFloat q p.2.embedding with
      | none => rfl
      | some s =>
        obtain ⟨hden, hval⟩ := simFloat_eq_some hsim
        have hle : s ≤ 1 := by
          have habs := abs_calculateSimilarity_le_one hden
          rw [← hval] at habs
          exact (abs_le.mp habs).2
        rw [Option.some_bind, if_neg (show ¬ s ≥ (1.1 : ℝ) by intro hge; linarith)]

/-- Witness for C10: the bounds and self-similarity at the one-element
vector, and the vacuous-threshold search at the populated state. -/
theorem C10_cosine_range_and_vacuous_threshold_witness :
    (-1 ≤ calculateSimilarity [(1 : ℝ)] [1] ∧ calculateSimilarity [(1 : ℝ)] [1] ≤ 1)
    ∧ calculateSimilarity [(1 : ℝ)] [1] = 1
    ∧ semanticSearch stReload [(1 : ℝ)] "u1" 10 1.1 = [] :=
  ⟨C10_cosine_range_and_vacuous_threshold.1 [1] [1]
      ⟨1, List.mem_singleton_self 1, one_ne_zero⟩
      ⟨1, List.mem_singleton_self 1, one_ne_zero⟩,
    C10_cosine_range_and_vacuous_threshold.2.1 [1]
      ⟨1, List.mem_singleton_self 1, one_ne_zero⟩,
    C10_cosine_range_and_vacuous_threshold.2.2 stReload [1] "u1" 10⟩

end UniMem
